import Mathlib

/-!
Verification of the hpcmp_status_site repository: a shallow embedding of the
parsing routines in cluster_monitor.py, the DashboardState cache and the
profile-building views in dashboard_server.py, with theorems settling the
spec claims about them.

Python string primitives (str.strip, str.split, substring membership, int(),
float()) are modelled by structurally recursive functions over character
lists so that every definition evaluates inside the kernel.
-/

namespace HpcStatus

/-! ### Models of the Python string primitives -/

/-- Model of Python str.strip(): drop whitespace from both ends. -/
def trimChars (l : List Char) : List Char :=
  ((l.dropWhile Char.isWhitespace).reverse.dropWhile Char.isWhitespace).reverse

/-- Model of Python str.strip() on strings. -/
def pyStrip (s : String) : String := String.mk (trimChars s.toList)

/-- True when the line is empty after stripping, i.e. Python `not line.strip()`. -/
def isBlank (s : String) : Bool := (trimChars s.toList).isEmpty

/-- Split a character list at every occurrence of the separator character,
keeping empty pieces, as Python str.split(sep) does. -/
def splitOnChar (c : Char) (l : List Char) : List (List Char) :=
  l.foldr
    (fun ch acc =>
      if ch = c then [] :: acc
      else
        match acc with
        | h :: t => (ch :: h) :: t
        | [] => [[ch]])
    [[]]

/-- Model of Python text.split(chr(10)): the lines of a string. -/
def splitLines (s : String) : List String :=
  (splitOnChar '\n' s.toList).map String.mk

/-- Model of Python str.split() with no argument: split on whitespace runs,
discarding empty tokens. -/
def pySplit (s : String) : List String :=
  ((s.toList.foldr
      (fun ch acc =>
        if ch.isWhitespace then [] :: acc
        else
          match acc with
          | h :: t => (ch :: h) :: t
          | [] => [[ch]])
      [[]]).filter (fun t => !t.isEmpty)).map String.mk

/-- Model of Python str.startswith. -/
def startsWithStr (pre s : String) : Bool := pre.toList.isPrefixOf s.toList

/-- Helper for substring membership: does the pattern occur at some suffix? -/
def containsChars (pat : List Char) : List Char → Bool
  | [] => pat.isEmpty
  | c :: t => pat.isPrefixOf (c :: t) || containsChars pat t

/-- Model of the Python membership test `pat in s` on strings. -/
def containsSub (s pat : String) : Bool := containsChars pat.toList s.toList

/-- Model of Python str.strip(ch) for a single character argument:
drop that character from both ends. -/
def stripCharEnds (c : Char) (l : List Char) : List Char :=
  ((l.dropWhile (· = c)).reverse.dropWhile (· = c)).reverse

/-- Model of Python line.strip(chr(124)): strip pipe characters from both ends. -/
def pyStripPipes (s : String) : String := String.mk (stripCharEnds '|' s.toList)

/-- Model of Python str.rstrip(ch): drop the character from the right end. -/
def rstripChar (c : Char) (l : List Char) : List Char :=
  (l.reverse.dropWhile (· = c)).reverse

/-- Model of Python s.rstrip over the percent sign, as used on percent tokens. -/
def rstripPercentStr (s : String) : String := String.mk (rstripChar '%' s.toList)

/-- Numeric value of a decimal digit character. -/
def digitVal (c : Char) : Nat := c.toNat - 48

/-- Value of a list of decimal digit characters (0 for the empty list). -/
def decimalNat (l : List Char) : Nat := l.foldl (fun n c => 10 * n + digitVal c) 0

/-- All characters are decimal digits. -/
def allDigits (l : List Char) : Bool := l.all Char.isDigit

/-- Model of Python int(s) on the strings the monitor feeds it: surrounding
whitespace, an optional sign, then a nonempty run of decimal digits;
anything else raises ValueError, modelled as none. -/
def pyIntChars (l0 : List Char) : Option Int :=
  match trimChars l0 with
  | '+' :: ds => if !ds.isEmpty && allDigits ds then some (decimalNat ds) else none
  | '-' :: ds => if !ds.isEmpty && allDigits ds then some (-(decimalNat ds : Int)) else none
  | ds => if !ds.isEmpty && allDigits ds then some (decimalNat ds) else none

/-- Model of Python int(s) on strings. -/
def pyInt (s : String) : Option Int := pyIntChars s.toList

/-- Rational value of an optional-sign decimal string with an optional
fractional part, or none; models Python float(s) on the decimal literals
the monitor feeds it (exact rationals stand in for IEEE doubles). -/
def pyFloatChars (l0 : List Char) : Option ℚ :=
  match trimChars l0 with
  | '+' :: body => pyFloatBody 1 body
  | '-' :: body => pyFloatBody (-1) body
  | body => pyFloatBody 1 body
where
  pyFloatBody (sgn : Int) (body : List Char) : Option ℚ :=
    match splitOnChar '.' body with
    | [ip] =>
        if !ip.isEmpty && allDigits ip then some ((sgn : ℚ) * decimalNat ip) else none
    | [ip, fp] =>
        if (!ip.isEmpty || !fp.isEmpty) && allDigits ip && allDigits fp then
          some ((sgn : ℚ) * ((decimalNat ip : ℚ) + (decimalNat fp : ℚ) / (10 : ℚ) ^ fp.length))
        else none
    | _ => none

/-- Model of Python float(s) on strings. -/
def pyFloat (s : String) : Option ℚ := pyFloatChars s.toList

/-! ### ClusterMonitor._parse_cluster_table (cluster_monitor.py lines 60-106) -/

/-- One row of the enumeration table kept by _parse_cluster_table. -/
structure ClusterEndpoint where
  uri : String
  status : String
  ctype : String
deriving DecidableEq

/-- The data-line filter of _parse_cluster_table: drop separator lines
(starting with a plus, or starting with a pipe while containing a plus),
blank lines, and any line containing URI, STATUS or TYPE. -/
def keepDataLine (line : String) : Bool :=
  !(startsWithStr "+" line || (startsWithStr "|" line && containsSub line "+")) &&
  !(isBlank line) &&
  !(containsSub line "URI" || containsSub line "STATUS" || containsSub line "TYPE")

/-- The stripped, nonempty pipe-separated columns of a data line, after the
line itself is stripped of whitespace and outer pipes. -/
def colParts (line : String) : List String :=
  (((pyStrip (pyStripPipes (pyStrip line))).toList |> splitOnChar '|').map
      (fun p => String.mk (trimChars p))).filter (fun p => p ≠ "")

/-- Row handling of _parse_cluster_table: a cleaned data line yields an
endpoint iff it has at least 3 columns with type existing and status on. -/
def endpointOfLine (line : String) : Option ClusterEndpoint :=
  if pyStrip (pyStripPipes (pyStrip line)) = "" then none
  else
    if 3 ≤ (colParts line).length then
      if pyStrip ((colParts line).getD 2 "") = "existing" ∧
          pyStrip ((colParts line).getD 1 "") = "on" then
        some ⟨pyStrip ((colParts line).getD 0 ""), pyStrip ((colParts line).getD 1 ""),
              pyStrip ((colParts line).getD 2 "")⟩
      else none
    else none

/-- _parse_cluster_table on a list of lines. -/
def parseClusterLines (lines : List String) : List ClusterEndpoint :=
  (lines.filter keepDataLine).filterMap endpointOfLine

/-- _parse_cluster_table on the raw table text. -/
def parseClusterTable (text : String) : List ClusterEndpoint :=
  parseClusterLines (splitLines (pyStrip text))

/-! ### The first (shadowed) _parse_queue_output, cluster_monitor.py lines 160-250.
This class-body definition is overridden by the second definition of the same
name further down the file, so it is never the one bound at runtime. -/

/-- Queue record of the first _parse_queue_output: twelve columns, numeric
job/core counters, boolean enabled/reserved flags. -/
structure QueueRecord where
  queue_name : String
  max_walltime : String
  max_jobs : String
  min_cores : String
  max_cores : String
  jobs_running : Int
  jobs_pending : Int
  cores_running : Int
  cores_pending : Int
  queue_type : String
  enabled : Bool
  reserved : Bool
deriving DecidableEq

/-- Node record of the first _parse_queue_output: six columns, numeric counters. -/
structure NodeRecord where
  node_type : String
  nodes_available : Int
  cores_per_node : Int
  cores_available : Int
  cores_running : Int
  cores_free : Int
deriving DecidableEq

/-- Row handling of the first _parse_queue_output's queue section: at least 12
whitespace tokens, counters parsed as ints (a ValueError skips the row),
enabled and reserved true exactly when the token is the literal Y. -/
def queueRowFirst (line : String) : Option QueueRecord :=
  if 12 ≤ (pySplit line).length then
    match pyInt ((pySplit line).getD 5 ""), pyInt ((pySplit line).getD 6 ""),
        pyInt ((pySplit line).getD 7 ""), pyInt ((pySplit line).getD 8 "") with
    | some jr, some jp, some cr, some cp =>
        some ⟨pyStrip ((pySplit line).getD 0 ""), pyStrip ((pySplit line).getD 1 ""),
              pyStrip ((pySplit line).getD 2 ""), pyStrip ((pySplit line).getD 3 ""),
              pyStrip ((pySplit line).getD 4 ""), jr, jp, cr, cp,
              pyStrip ((pySplit line).getD 9 ""),
              pyStrip ((pySplit line).getD 10 "") == "Y",
              pyStrip ((pySplit line).getD 11 "") == "Y"⟩
    | _, _, _, _ => none
  else none

/-- Row handling of the first _parse_queue_output's node section: at least 6
whitespace tokens, counters parsed as ints (a ValueError skips the row). -/
def nodeRowFirst (line : String) : Option NodeRecord :=
  if 6 ≤ (pySplit line).length then
    match pyInt ((pySplit line).getD 1 ""), pyInt ((pySplit line).getD 2 ""),
        pyInt ((pySplit line).getD 3 ""), pyInt ((pySplit line).getD 4 ""),
        pyInt ((pySplit line).getD 5 "") with
    | some na, some cpn, some ca, some cr, some cf =>
        some ⟨pyStrip ((pySplit line).getD 0 ""), na, cpn, ca, cr, cf⟩
    | _, _, _, _, _ => none
  else none

/-- Scan state of the first _parse_queue_output. -/
structure QScanFirst where
  inQueue : Bool
  inNode : Bool
  queues : List QueueRecord
  nodes : List NodeRecord

/-- Per-line step of the first _parse_queue_output. -/
def stepFirst (st : QScanFirst) (line : String) : QScanFirst :=
  if containsSub line "QUEUE INFORMATION:" then
    { st with inQueue := true, inNode := false }
  else if containsSub line "NODE INFORMATION:" then
    { st with inQueue := false, inNode := true }
  else if st.inQueue then
    if startsWithStr "Queue Name" line || startsWithStr "=" line || startsWithStr "|" line then st
    else if isBlank line then st
    else
      match queueRowFirst (pyStrip line) with
      | some r => { st with queues := st.queues ++ [r] }
      | none => st
  else if st.inNode then
    if startsWithStr "Node Type" line || startsWithStr "=" line || startsWithStr "|" line then st
    else if isBlank line then st
    else
      match nodeRowFirst (pyStrip line) with
      | some r => { st with nodes := st.nodes ++ [r] }
      | none => st
  else st

/-- Output of the first _parse_queue_output: the queue_info and node_info lists. -/
structure QueueDataFirst where
  queue_info : List QueueRecord
  node_info : List NodeRecord
deriving DecidableEq

/-- The first (shadowed) _parse_queue_output on the raw text. -/
def parseQueueOutputFirst (text : String) : QueueDataFirst :=
  let fin := (splitLines (pyStrip text)).foldl stepFirst ⟨false, false, [], []⟩
  ⟨fin.queues, fin.nodes⟩

/-! ### The second _parse_queue_output, cluster_monitor.py lines 333-411.
Being defined later in the same class body, this is the definition bound to
the name at runtime: ten queue columns kept as strings with no
enabled/reserved flags, five-or-more node columns kept as strings with
cores_free defaulted to the string 0 when only five are present. -/

/-- Queue record of the runtime-effective _parse_queue_output. -/
structure QueueRecordEff where
  queue_name : String
  max_walltime : String
  max_jobs : String
  max_cores : String
  max_cores_per_job : String
  jobs_running : String
  jobs_pending : String
  cores_running : String
  cores_pending : String
  queue_type : String
deriving DecidableEq

/-- Node record of the runtime-effective _parse_queue_output. -/
structure NodeRecordEff where
  node_type : String
  nodes_available : String
  cores_per_node : String
  cores_available : String
  cores_running : String
  cores_free : String
deriving DecidableEq

/-- Row handling of the effective _parse_queue_output's queue section:
at least 10 whitespace tokens, all fields kept as stripped strings. -/
def queueRowEff (line : String) : Option QueueRecordEff :=
  if 10 ≤ (pySplit line).length then
    some ⟨pyStrip ((pySplit line).getD 0 ""), pyStrip ((pySplit line).getD 1 ""),
          pyStrip ((pySplit line).getD 2 ""), pyStrip ((pySplit line).getD 3 ""),
          pyStrip ((pySplit line).getD 4 ""), pyStrip ((pySplit line).getD 5 ""),
          pyStrip ((pySplit line).getD 6 ""), pyStrip ((pySplit line).getD 7 ""),
          pyStrip ((pySplit line).getD 8 ""), pyStrip ((pySplit line).getD 9 "")⟩
  else none

/-- Row handling of the effective _parse_queue_output's node section:
at least 5 whitespace tokens, all fields kept as stripped strings, and
cores_free defaulted to the string 0 when only five tokens are present. -/
def nodeRowEff (line : String) : Option NodeRecordEff :=
  if 5 ≤ (pySplit line).length then
    some ⟨pyStrip ((pySplit line).getD 0 ""), pyStrip ((pySplit line).getD 1 ""),
          pyStrip ((pySplit line).getD 2 ""), pyStrip ((pySplit line).getD 3 ""),
          pyStrip ((pySplit line).getD 4 ""),
          if 5 < (pySplit line).length then pyStrip ((pySplit line).getD 5 "") else "0"⟩
  else none

/-- Scan state of the effective _parse_queue_output. -/
structure QScanEff where
  inQueue : Bool
  inNode : Bool
  queues : List QueueRecordEff
  nodes : List NodeRecordEff

/-- Per-line step of the effective _parse_queue_output. -/
def stepEff (st : QScanEff) (line : String) : QScanEff :=
  if containsSub line "QUEUE INFORMATION:" || containsSub line "Queue Name" then
    { st with inQueue := true, inNode := false }
  else if containsSub line "NODE INFORMATION:" || containsSub line "Node Type" then
    { st with inQueue := false, inNode := true }
  else
    let st1 :=
      if st.inQueue then
        if startsWithStr "=" line || startsWithStr "-" line || startsWithStr "|" line ||
            isBlank line then st
        else if !(containsSub line "Queue Name") && !(isBlank line) then
          match queueRowEff line with
          | some r => { st with queues := st.queues ++ [r] }
          | none => st
        else st
      else st
    if st1.inNode then
      if startsWithStr "=" line || startsWithStr "-" line || startsWithStr "|" line ||
          isBlank line then st1
      else if !(containsSub line "Node Type") && !(isBlank line) then
        match nodeRowEff line with
        | some r => { st1 with nodes := st1.nodes ++ [r] }
        | none => st1
      else st1
    else st1

/-- Output of the effective _parse_queue_output: the queues and nodes lists. -/
structure QueueDataEff where
  queues : List QueueRecordEff
  nodes : List NodeRecordEff
deriving DecidableEq

/-- The runtime-effective _parse_queue_output on the raw text. -/
def parseQueueOutputEff (text : String) : QueueDataEff :=
  let fin := (splitLines (pyStrip text)).foldl stepEff ⟨false, false, [], []⟩
  ⟨fin.queues, fin.nodes⟩

/-! ### ClusterMonitor._parse_usage_output (cluster_monitor.py lines 252-331) -/

/-- One row of the system usage table. -/
structure UsageRecord where
  system : String
  subproject : String
  hours_allocated : Int
  hours_used : Int
  hours_remaining : Int
  percent_remaining : ℚ
  background_hours_used : Int
deriving DecidableEq

/-- Row handling of the usage table: at least 7 whitespace tokens, hour
counters parsed as ints, the percent token stripped of trailing percent
signs and parsed as a float; any parse failure skips the row. -/
def usageRow (line : String) : Option UsageRecord :=
  if 7 ≤ (pySplit line).length then
    match pyInt ((pySplit line).getD 2 ""), pyInt ((pySplit line).getD 3 ""),
        pyInt ((pySplit line).getD 4 ""),
        pyFloat (rstripPercentStr (pyStrip ((pySplit line).getD 5 ""))),
        pyInt ((pySplit line).getD 6 "") with
    | some ha, some hu, some hr, some pr, some bg =>
        some ⟨pyStrip ((pySplit line).getD 0 ""), pyStrip ((pySplit line).getD 1 ""),
              ha, hu, hr, pr, bg⟩
    | _, _, _, _, _ => none
  else none

/-- Model of the space join used for the header and fiscal info strings. -/
def joinSpace : List String → String
  | [] => ""
  | [s] => s
  | s :: rest => s ++ " " ++ joinSpace rest

/-- Header extraction of _parse_usage_output: the stripped leading lines up to
the first blank line, line starting with System, or line starting with an
equals sign. -/
def headerOf (lines : List String) : String :=
  joinSpace ((lines.takeWhile (fun l =>
    !(isBlank l) && !(startsWithStr "System" l) && !(startsWithStr "=" l))).map pyStrip)

/-- Fiscal info extraction of _parse_usage_output: all lines mentioning
Fiscal Year or Hours Remaining, stripped and space-joined. -/
def fiscalOf (lines : List String) : String :=
  joinSpace ((lines.filter (fun l =>
    containsSub l "Fiscal Year" || containsSub l "Hours Remaining")).map pyStrip)

/-- Scan state of the usage table extraction. -/
structure UScan where
  inTable : Bool
  tableStarted : Bool
  sepFound : Bool
  out : List UsageRecord

/-- Per-line step of the usage table extraction: a header line containing
System, Subproject and Allocated enters table mode and resets the separator
flag; a line starting with an equals sign or eight hyphens marks the
separator; blank lines are skipped; after the separator, rows are parsed. -/
def usageStep (st : UScan) (line : String) : UScan :=
  if containsSub line "System" && containsSub line "Subproject" &&
      containsSub line "Allocated" then
    { st with inTable := true, tableStarted := true, sepFound := false }
  else if st.inTable && st.tableStarted then
    if startsWithStr "=" line || startsWithStr "--------" line then
      { st with sepFound := true }
    else if isBlank line then st
    else if st.sepFound then
      match usageRow (pyStrip line) with
      | some r => { st with out := st.out ++ [r] }
      | none => st
    else st
  else st

/-- Output of _parse_usage_output. -/
structure UsageData where
  header : String
  fiscal_year_info : String
  systems : List UsageRecord
deriving DecidableEq

/-- _parse_usage_output on the raw text. -/
def parseUsageOutput (text : String) : UsageData :=
  ⟨headerOf (splitLines (pyStrip text)), fiscalOf (splitLines (pyStrip text)),
   ((splitLines (pyStrip text)).foldl usageStep ⟨false, false, false, []⟩).out⟩

/-! ### DashboardState (dashboard_server.py lines 40-84)

The cache holds an opaque payload P.  Its refresh method acquires the
single-flight lock (a non-blocking acquire fails exactly when the lock is
held), then runs generate_payload and write_payload inside a try block, and
releases the lock in a finally clause.  The two effectful collaborators are
passed explicitly: producer models generate_payload (raising modelled as an
error value carrying the exception text) and persist models write_payload.
The refreshing field is the single-flight lock: it is true while a refresh
is in flight, and every path through refresh leaves it released.  The
sequential embedding covers every path except a blocking acquire against a
held lock, which in the source parks the caller until the holder releases. -/

structure DashState (P : Type) where
  payload : Option P
  lastError : Option String
  lastRefreshTs : Option Nat
  refreshing : Bool

/-- Result of DashboardState.refresh: the post state and the (ok, message)
pair the method returns. -/
structure RefreshResult (P : Type) where
  state : DashState P
  ok : Bool
  message : String

/-- DashboardState.refresh.  On a failed non-blocking acquire it returns
immediately; otherwise it runs the producer, persists the payload, and only
then commits it together with clearing last_error and stamping the refresh
time; any exception is caught, recorded in last_error and reported, and the
finally clause releases the lock on every path. -/
def refresh {P : Type} (st : DashState P) (blocking : Bool)
    (producer : Except String P) (persist : P → Except String Unit)
    (now : Nat) : RefreshResult P :=
  if !blocking && st.refreshing then
    ⟨st, false, "Refresh already in progress."⟩
  else
    match producer with
    | .error msg =>
        ⟨{ st with lastError := some msg, refreshing := false }, false,
          "Refresh failed: " ++ msg⟩
    | .ok p =>
        match persist p with
        | .error msg =>
            ⟨{ st with lastError := some msg, refreshing := false }, false,
              "Refresh failed: " ++ msg⟩
        | .ok _ =>
            ⟨⟨some p, none, some now, false⟩, true, "Refreshed."⟩

/-- DashboardState.snapshot: the committed payload, last error and last
refresh time, read without blocking on an in-flight refresh. -/
def snapshot {P : Type} (st : DashState P) :
    Option P × Option String × Option Nat :=
  (st.payload, st.lastError, st.lastRefreshTs)

/-! ### DashboardRequestHandler view building (dashboard_server.py lines 452-528) -/

/-- A JSON scalar as read back from the persisted cluster document, fed to
_safe_number: a number, a string, or null (also standing for a missing key). -/
inductive JValue where
  | num (q : ℚ)
  | str (s : String)
  | null
deriving DecidableEq

/-- DashboardRequestHandler._safe_number: float(str(value).strip().replace
of commas) with default 0 on failure.  On a JSON number, str followed by
float is the identity; on a string the stripped, comma-free text must parse
as a float; null (and a missing key) stringifies to text float rejects. -/
def safeNumber : JValue → ℚ
  | .num q => q
  | .str s =>
      match pyFloatChars ((trimChars s.toList).filter (fun c => c ≠ ',')) with
      | some q => q
      | none => 0
  | .null => 0

/-- The hour fields of one usage system entry, as read from JSON. -/
structure UsageSystemJ where
  hours_allocated : JValue
  hours_used : JValue
  hours_remaining : JValue
deriving DecidableEq

/-- Sum of _safe_number over hours_allocated (dashboard_server.py line 462). -/
def totalAllocated (systems : List UsageSystemJ) : ℚ :=
  (systems.map (fun s => safeNumber s.hours_allocated)).sum

/-- Sum of _safe_number over hours_remaining (dashboard_server.py line 463). -/
def totalRemaining (systems : List UsageSystemJ) : ℚ :=
  (systems.map (fun s => safeNumber s.hours_remaining)).sum

/-- Sum of _safe_number over hours_used (dashboard_server.py line 464). -/
def totalUsed (systems : List UsageSystemJ) : ℚ :=
  (systems.map (fun s => safeNumber s.hours_used)).sum

/-- percent_remaining of the cluster usage profile (dashboard_server.py line
465): None when total_allocated is falsy, i.e. zero, otherwise
total_remaining / total_allocated * 100. -/
def percentRemaining (systems : List UsageSystemJ) : Option ℚ :=
  if totalAllocated systems = 0 then none
  else some (totalRemaining systems / totalAllocated systems * 100)

/-- The fields of a queue profile read by the least-backlogged selection:
the profile's pending job and pending core counts (already passed through
_safe_number when the profile was built). -/
structure QueueProfile where
  name : String
  pendingJobs : ℚ
  pendingCores : ℚ
deriving DecidableEq

/-- The sort key comparison used at dashboard_server.py line 493: Python
tuples (pending jobs, pending cores) compare lexicographically. -/
def backlogLe (a b : QueueProfile) : Prop :=
  a.pendingJobs < b.pendingJobs ∨
    (a.pendingJobs = b.pendingJobs ∧ a.pendingCores ≤ b.pendingCores)

instance : DecidableRel backlogLe := fun a b =>
  inferInstanceAs (Decidable (a.pendingJobs < b.pendingJobs ∨
    (a.pendingJobs = b.pendingJobs ∧ a.pendingCores ≤ b.pendingCores)))

/-- Lines 491-494: None for an empty profile list, otherwise the head of the
stable sort by (pending jobs, pending cores).  Python's sorted is a stable
sort; any stable sort computes the same output, here insertion sort. -/
def leastBackloggedQueue (qs : List QueueProfile) : Option QueueProfile :=
  match qs with
  | [] => none
  | _ :: _ => (List.insertionSort backlogLe qs).head?

/-- Modelled from the spec's words for the least-backlogged hint: the queue
profile whose (pending_jobs, pending_cores) pair is lexicographically
smallest, ties broken in favour of the earliest profile in input order. -/
def specLeastBacklogged : List QueueProfile → Option QueueProfile
  | [] => none
  | a :: rest =>
      match specLeastBacklogged rest with
      | none => some a
      | some m => if backlogLe a m then some a else some m

/-! ### Helper lemmas -/

lemma head_orderedInsert_backlog (a : QueueProfile) (l : List QueueProfile) :
    (List.orderedInsert backlogLe a l).head? =
      match l.head? with
      | none => some a
      | some b => if backlogLe a b then some a else some b := by
  cases l with
  | nil => rfl
  | cons b bs =>
      by_cases h : backlogLe a b
      · simp [List.orderedInsert, h]
      · simp [List.orderedInsert, h]

lemma head_insertionSort_backlog (qs : List QueueProfile) :
    (List.insertionSort backlogLe qs).head? = specLeastBacklogged qs := by
  induction qs with
  | nil => rfl
  | cons a rest ih =>
      simp only [List.insertionSort]
      rw [head_orderedInsert_backlog, ih]
      cases h : specLeastBacklogged rest with
      | none => simp [specLeastBacklogged, h]
      | some m => simp [specLeastBacklogged, h]

/-! ### Claim theorems: the live-state cache -/

/-- Claim C3: when the producer raises, refresh with blocking acquisition
returns ok false, leaves the committed snapshot and its timestamp exactly as
they were, records the failure message in last_error (so the state is
distinguishable from the never-populated one), and releases the single-flight
lock, so a subsequent refresh can acquire it and succeed. -/
theorem claim_c3 (P : Type) (st : DashState P) (msg : String)
    (persist : P → Except String Unit) (now : Nat)
    (_hfree : st.refreshing = false) :
    (refresh st true (.error msg) persist now).ok = false ∧
    (refresh st true (.error msg) persist now).state.payload = st.payload ∧
    (refresh st true (.error msg) persist now).state.lastRefreshTs = st.lastRefreshTs ∧
    (refresh st true (.error msg) persist now).state.lastError = some msg ∧
    (refresh st true (.error msg) persist now).state.lastError ≠ none ∧
    (refresh st true (.error msg) persist now).message = "Refresh failed: " ++ msg ∧
    (refresh st true (.error msg) persist now).state.refreshing = false ∧
    (∀ (p : P) (now2 : Nat),
      (refresh (refresh st true (.error msg) persist now).state true (.ok p)
          (fun _ => .ok ()) now2).ok = true) := by
  simp [refresh]

/-- Claim C3 witness at a concrete state. -/
theorem claim_c3_witness :
    (refresh (⟨none, none, none, false⟩ : DashState Nat) true (.error "boom")
        (fun _ => .ok ()) 0).ok = false ∧
    (refresh (⟨none, none, none, false⟩ : DashState Nat) true (.error "boom")
        (fun _ => .ok ()) 0).state.payload = none ∧
    (refresh (⟨none, none, none, false⟩ : DashState Nat) true (.error "boom")
        (fun _ => .ok ()) 0).state.lastRefreshTs = none ∧
    (refresh (⟨none, none, none, false⟩ : DashState Nat) true (.error "boom")
        (fun _ => .ok ()) 0).state.lastError = some "boom" ∧
    (refresh (⟨none, none, none, false⟩ : DashState Nat) true (.error "boom")
        (fun _ => .ok ()) 0).state.lastError ≠ none ∧
    (refresh (⟨none, none, none, false⟩ : DashState Nat) true (.error "boom")
        (fun _ => .ok ()) 0).message = "Refresh failed: " ++ "boom" ∧
    (refresh (⟨none, none, none, false⟩ : DashState Nat) true (.error "boom")
        (fun _ => .ok ()) 0).state.refreshing = false ∧
    (∀ (p : Nat) (now2 : Nat),
      (refresh (refresh (⟨none, none, none, false⟩ : DashState Nat) true
          (.error "boom") (fun _ => .ok ()) 0).state true (.ok p)
          (fun _ => .ok ()) now2).ok = true) :=
  claim_c3 Nat ⟨none, none, none, false⟩ "boom" (fun _ => .ok ()) 0 rfl

/-- Claim C4 counterexample: a non-blocking refresh against a held lock
returns the message "Refresh already in progress.", which is not the literal
"refresh in progress" stated by the claim. -/
theorem claim_c4_counterexample :
    (refresh (⟨none, none, none, true⟩ : DashState Nat) false (.ok 7)
        (fun _ => .ok ()) 0).message = "Refresh already in progress." ∧
    ¬ ("Refresh already in progress." = "refresh in progress") := by
  decide

/-- Claim C4 (amended): a non-blocking refresh while the single-flight lock
is held returns immediately with ok false and the message "Refresh already
in progress.", leaves the whole state (snapshot, last_error, refresh time)
unchanged, and its outcome does not depend on the producer or the persist
action, which are therefore never invoked. -/
theorem claim_c4 (P : Type) (st : DashState P)
    (prod1 prod2 : Except String P) (per1 per2 : P → Except String Unit)
    (now1 now2 : Nat) (hheld : st.refreshing = true) :
    refresh st false prod1 per1 now1 =
      ⟨st, false, "Refresh already in progress."⟩ ∧
    refresh st false prod1 per1 now1 = refresh st false prod2 per2 now2 := by
  simp [refresh, hheld]

/-- Claim C4 witness at a concrete held-lock state. -/
theorem claim_c4_witness :
    refresh (⟨none, none, none, true⟩ : DashState Nat) false (.ok 1)
        (fun _ => .ok ()) 0 =
      ⟨⟨none, none, none, true⟩, false, "Refresh already in progress."⟩ ∧
    refresh (⟨none, none, none, true⟩ : DashState Nat) false (.ok 1)
        (fun _ => .ok ()) 0 =
      refresh (⟨none, none, none, true⟩ : DashState Nat) false (.ok 2)
        (fun _ => .error "x") 5 :=
  claim_c4 Nat ⟨none, none, none, true⟩ (.ok 1) (.ok 2) (fun _ => .ok ())
    (fun _ => .error "x") 0 5 rfl

/-- Claim C9 counterexample: when persisting the newly produced snapshot
fails, refresh does not commit it in memory; the committed snapshot stays
at its previous value and the call reports failure. -/
theorem claim_c9_counterexample :
    (refresh (⟨none, none, none, false⟩ : DashState Nat) true (.ok 42)
        (fun _ => .error "disk full") 0).state.payload = none ∧
    ¬ ((refresh (⟨none, none, none, false⟩ : DashState Nat) true (.ok 42)
        (fun _ => .error "disk full") 0).state.payload = some 42) ∧
    (refresh (⟨none, none, none, false⟩ : DashState Nat) true (.ok 42)
        (fun _ => .error "disk full") 0).ok = false := by
  decide

/-- Claim C9 (amended): persistence runs before the in-memory commit, so
when it fails the previously committed snapshot and its timestamp are not
rolled back, but the newly produced snapshot is not committed either; the
failure is recorded in last_error, the call returns ok false with the
failure message, and the lock is released. -/
theorem claim_c9 (P : Type) (st : DashState P) (p : P) (msg : String)
    (now : Nat) (_hfree : st.refreshing = false) :
    (refresh st true (.ok p) (fun _ => .error msg) now).ok = false ∧
    (refresh st true (.ok p) (fun _ => .error msg) now).state.payload = st.payload ∧
    (refresh st true (.ok p) (fun _ => .error msg) now).state.lastRefreshTs =
      st.lastRefreshTs ∧
    (refresh st true (.ok p) (fun _ => .error msg) now).state.lastError = some msg ∧
    (refresh st true (.ok p) (fun _ => .error msg) now).message =
      "Refresh failed: " ++ msg ∧
    (refresh st true (.ok p) (fun _ => .error msg) now).state.refreshing = false := by
  simp [refresh]

/-- Claim C9 witness at a concrete state. -/
theorem claim_c9_witness :
    (refresh (⟨some 7, none, some 3, false⟩ : DashState Nat) true (.ok 42)
        (fun _ => .error "disk full") 9).ok = false ∧
    (refresh (⟨some 7, none, some 3, false⟩ : DashState Nat) true (.ok 42)
        (fun _ => .error "disk full") 9).state.payload = some 7 ∧
    (refresh (⟨some 7, none, some 3, false⟩ : DashState Nat) true (.ok 42)
        (fun _ => .error "disk full") 9).state.lastRefreshTs = some 3 ∧
    (refresh (⟨some 7, none, some 3, false⟩ : DashState Nat) true (.ok 42)
        (fun _ => .error "disk full") 9).state.lastError = some "disk full" ∧
    (refresh (⟨some 7, none, some 3, false⟩ : DashState Nat) true (.ok 42)
        (fun _ => .error "disk full") 9).message = "Refresh failed: " ++ "disk full" ∧
    (refresh (⟨some 7, none, some 3, false⟩ : DashState Nat) true (.ok 42)
        (fun _ => .error "disk full") 9).state.refreshing = false :=
  claim_c9 Nat ⟨some 7, none, some 3, false⟩ 42 "disk full" 9 rfl

/-! ### Claim theorems: the view builder -/

/-- Claim C5: the usage profile's percent_remaining is null exactly when the
sum of hours_allocated over the document's usage records is zero, and
otherwise equals total remaining over total allocated times one hundred. -/
theorem claim_c5 (systems : List UsageSystemJ) :
    (percentRemaining systems = none ↔ totalAllocated systems = 0) ∧
    (totalAllocated systems ≠ 0 →
      percentRemaining systems =
        some (totalRemaining systems / totalAllocated systems * 100)) := by
  constructor
  · unfold percentRemaining
    split_ifs with h
    · simp [h]
    · simp [h]
  · intro h
    unfold percentRemaining
    rw [if_neg h]

/-- Claim C5 witness at a concrete one-record document. -/
theorem claim_c5_witness :
    percentRemaining [⟨.num 100, .num 40, .num 60⟩] =
      some (totalRemaining [⟨.num 100, .num 40, .num 60⟩] /
        totalAllocated [⟨.num 100, .num 40, .num 60⟩] * 100) :=
  (claim_c5 [⟨.num 100, .num 40, .num 60⟩]).2 (by
    show ¬ totalAllocated [⟨.num 100, .num 40, .num 60⟩] = 0
    unfold totalAllocated safeNumber
    norm_num)

/-- Claim C6: for a nonempty profile list the least-backlogged hint is the
profile with the lexicographically smallest (pending jobs, pending cores)
pair, ties broken in favour of the earliest profile in input order; in
particular of the two queues with pending pairs (5, 40) and (2, 100) the
second is selected. -/
theorem claim_c6 :
    (∀ qs : List QueueProfile, qs ≠ [] →
      leastBackloggedQueue qs = specLeastBacklogged qs) ∧
    leastBackloggedQueue [⟨"alpha", 5, 40⟩, ⟨"beta", 2, 100⟩] =
      some ⟨"beta", 2, 100⟩ := by
  constructor
  · intro qs hne
    cases qs with
    | nil => exact absurd rfl hne
    | cons a rest => exact head_insertionSort_backlog (a :: rest)
  · decide

/-- Claim C6 witness at a concrete singleton list. -/
theorem claim_c6_witness :
    leastBackloggedQueue [⟨"only", 3, 9⟩] = specLeastBacklogged [⟨"only", 3, 9⟩] :=
  claim_c6.1 [⟨"only", 3, 9⟩] (by decide)

/-! ### Claim theorems: the parsers -/

/-- Claim C1 counterexample: the runtime-effective queue parser accepts a
queue row of exactly 10 whitespace tokens, contradicting the claim that it
accepts a row only when it has at least 12; the produced record carries the
ten tokens as strings and has no enabled or reserved field at all. -/
theorem claim_c1_counterexample :
    parseQueueOutputEff "QUEUE INFORMATION:\nHIE 24:00:00 - 0 2304 4 0 384 0 Exe" =
      ⟨[⟨"HIE", "24:00:00", "-", "0", "2304", "4", "0", "384", "0", "Exe"⟩], []⟩ ∧
    (pySplit "HIE 24:00:00 - 0 2304 4 0 384 0 Exe").length = 10 := by
  decide

/-- Claim C1 (amended): the queue parser effective at runtime is the second
definition of _parse_queue_output; its queue-row handler accepts a row
exactly when it has at least 10 whitespace tokens and then yields a record
whose fields, in order (queue_name, max_walltime, max_jobs, max_cores,
max_cores_per_job, jobs_running, jobs_pending, cores_running, cores_pending,
queue_type), are the first ten tokens kept as strings, with no enabled or
reserved flag.  The 12-token schema with boolean enabled and reserved flags
equal to the comparison of the 11th and 12th token with the literal Y
belongs to the first, shadowed definition. -/
theorem claim_c1 :
    (∀ (line : String) (r : QueueRecordEff),
      queueRowEff line = some r ↔
        (10 ≤ (pySplit line).length ∧
          r = ⟨pyStrip ((pySplit line).getD 0 ""), pyStrip ((pySplit line).getD 1 ""),
               pyStrip ((pySplit line).getD 2 ""), pyStrip ((pySplit line).getD 3 ""),
               pyStrip ((pySplit line).getD 4 ""), pyStrip ((pySplit line).getD 5 ""),
               pyStrip ((pySplit line).getD 6 ""), pyStrip ((pySplit line).getD 7 ""),
               pyStrip ((pySplit line).getD 8 ""), pyStrip ((pySplit line).getD 9 "")⟩)) ∧
    (∀ (line : String) (r : QueueRecord),
      queueRowFirst line = some r →
        12 ≤ (pySplit line).length ∧
        r.queue_name = pyStrip ((pySplit line).getD 0 "") ∧
        r.max_walltime = pyStrip ((pySplit line).getD 1 "") ∧
        r.max_jobs = pyStrip ((pySplit line).getD 2 "") ∧
        r.min_cores = pyStrip ((pySplit line).getD 3 "") ∧
        r.max_cores = pyStrip ((pySplit line).getD 4 "") ∧
        pyInt ((pySplit line).getD 5 "") = some r.jobs_running ∧
        pyInt ((pySplit line).getD 6 "") = some r.jobs_pending ∧
        pyInt ((pySplit line).getD 7 "") = some r.cores_running ∧
        pyInt ((pySplit line).getD 8 "") = some r.cores_pending ∧
        r.queue_type = pyStrip ((pySplit line).getD 9 "") ∧
        r.enabled = (pyStrip ((pySplit line).getD 10 "") == "Y") ∧
        r.reserved = (pyStrip ((pySplit line).getD 11 "") == "Y")) := by
  constructor
  · intro line r
    unfold queueRowEff
    by_cases h : 10 ≤ (pySplit line).length
    · rw [if_pos h]
      constructor
      · intro he
        injection he with he
        exact ⟨h, he.symm⟩
      · rintro ⟨-, rfl⟩
        rfl
    · rw [if_neg h]
      constructor
      · intro he
        exact Option.noConfusion he
      · rintro ⟨h10, -⟩
        exact absurd h10 h
  · intro line r hr
    unfold queueRowFirst at hr
    by_cases h : 12 ≤ (pySplit line).length
    · rw [if_pos h] at hr
      split at hr
      · rename_i jr jp cr cp hjr hjp hcr hcp
        injection hr with hr
        subst hr
        exact ⟨h, rfl, rfl, rfl, rfl, rfl, hjr, hjp, hcr, hcp, rfl, rfl, rfl⟩
      · exact Option.noConfusion hr
    · rw [if_neg h] at hr
      exact Option.noConfusion hr

/-- Claim C1 witness: the effective queue-row handler on a concrete
ten-token row. -/
theorem claim_c1_witness :
    queueRowEff "a b c d e f g h i j" =
      some ⟨"a", "b", "c", "d", "e", "f", "g", "h", "i", "j"⟩ :=
  (claim_c1.1 "a b c d e f g h i j" ⟨"a", "b", "c", "d", "e", "f", "g", "h", "i", "j"⟩).mpr
    (by decide)

/-- Claim C2 counterexample: under the runtime-effective parser, a node row
of exactly 5 tokens (fewer than the 6 the claim requires) does produce a
record, and its cores_free field is defaulted to the string 0 rather than
taken from the row. -/
theorem claim_c2_counterexample :
    parseQueueOutputEff "NODE INFORMATION:\nStandard 494 96 47424 10080" =
      ⟨[], [⟨"Standard", "494", "96", "47424", "10080", "0"⟩]⟩ ∧
    (pySplit "Standard 494 96 47424 10080").length = 5 := by
  decide

/-- Claim C2 (amended): every parsed record is built from one input row with
at least the minimum token count of its kind, which under the parsers
effective at runtime is 3 columns for enumeration rows, 7 tokens for usage
rows, 10 tokens for queue rows and 5 tokens for node rows; a shorter row
contributes no record; and no field is defaulted, except that a node row
with exactly 5 tokens has its cores_free field defaulted to the string 0. -/
theorem claim_c2 :
    (∀ line : String, (colParts line).length < 3 → endpointOfLine line = none) ∧
    (∀ (line : String) (ep : ClusterEndpoint),
      endpointOfLine line = some ep →
        3 ≤ (colParts line).length ∧
        ep = ⟨pyStrip ((colParts line).getD 0 ""), pyStrip ((colParts line).getD 1 ""),
              pyStrip ((colParts line).getD 2 "")⟩) ∧
    (∀ line : String, (pySplit line).length < 7 → usageRow line = none) ∧
    (∀ (line : String) (r : UsageRecord),
      usageRow line = some r →
        7 ≤ (pySplit line).length ∧
        r.system = pyStrip ((pySplit line).getD 0 "") ∧
        r.subproject = pyStrip ((pySplit line).getD 1 "") ∧
        pyInt ((pySplit line).getD 2 "") = some r.hours_allocated ∧
        pyInt ((pySplit line).getD 3 "") = some r.hours_used ∧
        pyInt ((pySplit line).getD 4 "") = some r.hours_remaining ∧
        pyFloat (rstripPercentStr (pyStrip ((pySplit line).getD 5 ""))) =
          some r.percent_remaining ∧
        pyInt ((pySplit line).getD 6 "") = some r.background_hours_used) ∧
    (∀ line : String, (pySplit line).length < 10 → queueRowEff line = none) ∧
    (∀ line : String, (pySplit line).length < 5 → nodeRowEff line = none) ∧
    (∀ (line : String) (r : NodeRecordEff),
      nodeRowEff line = some r →
        5 ≤ (pySplit line).length ∧
        r = ⟨pyStrip ((pySplit line).getD 0 ""), pyStrip ((pySplit line).getD 1 ""),
             pyStrip ((pySplit line).getD 2 ""), pyStrip ((pySplit line).getD 3 ""),
             pyStrip ((pySplit line).getD 4 ""),
             if 5 < (pySplit line).length then pyStrip ((pySplit line).getD 5 "")
             else "0"⟩) := by
  refine ⟨?_, ?_, ?_, ?_, ?_, ?_, ?_⟩
  · intro line h
    unfold endpointOfLine
    by_cases h0 : pyStrip (pyStripPipes (pyStrip line)) = ""
    · rw [if_pos h0]
    · rw [if_neg h0, if_neg (by omega : ¬ 3 ≤ (colParts line).length)]
  · intro line ep hep
    unfold endpointOfLine at hep
    by_cases h0 : pyStrip (pyStripPipes (pyStrip line)) = ""
    · rw [if_pos h0] at hep
      exact Option.noConfusion hep
    · rw [if_neg h0] at hep
      by_cases h3 : 3 ≤ (colParts line).length
      · rw [if_pos h3] at hep
        by_cases hflt : pyStrip ((colParts line).getD 2 "") = "existing" ∧
            pyStrip ((colParts line).getD 1 "") = "on"
        · rw [if_pos hflt] at hep
          injection hep with hep
          exact ⟨h3, hep.symm⟩
        · rw [if_neg hflt] at hep
          exact Option.noConfusion hep
      · rw [if_neg h3] at hep
        exact Option.noConfusion hep
  · intro line h
    unfold usageRow
    rw [if_neg (by omega : ¬ 7 ≤ (pySplit line).length)]
  · intro line r hr
    unfold usageRow at hr
    by_cases h : 7 ≤ (pySplit line).length
    · rw [if_pos h] at hr
      split at hr
      · rename_i ha hu hhr hpr hbg hha hhu hhrr hppr hbgg
        injection hr with hr
        subst hr
        exact ⟨h, rfl, rfl, hha, hhu, hhrr, hppr, hbgg⟩
      · exact Option.noConfusion hr
    · rw [if_neg h] at hr
      exact Option.noConfusion hr
  · intro line h
    unfold queueRowEff
    rw [if_neg (by omega : ¬ 10 ≤ (pySplit line).length)]
  · intro line h
    unfold nodeRowEff
    rw [if_neg (by omega : ¬ 5 ≤ (pySplit line).length)]
  · intro line r hr
    unfold nodeRowEff at hr
    by_cases h : 5 ≤ (pySplit line).length
    · rw [if_pos h] at hr
      injection hr with hr
      exact ⟨h, hr.symm⟩
    · rw [if_neg h] at hr
      exact Option.noConfusion hr

/-- Claim C2 witness: a two-column enumeration row yields no endpoint. -/
theorem claim_c2_witness : endpointOfLine "| short | row |" = none :=
  claim_c2.1 "| short | row |" (by decide)

/-- Claim C7: parsing a usage text made of a header line containing System,
Subproject and Allocated, a separator line, and the concrete data row for
system jean yields exactly one usage record with the stated fields, the
percent parsed as the number 100 after stripping the trailing percent sign. -/
theorem claim_c7 :
    (parseUsageOutput
      "System Subproject Allocated Used Remaining Percent Background\n==========\njean AFSNW27526RYZ 250000 0 250000 100.00% 0").systems =
      [⟨"jean", "AFSNW27526RYZ", 250000, 0, 250000, 100, 0⟩] := by
  have h : (parseUsageOutput
      "System Subproject Allocated Used Remaining Percent Background\n==========\njean AFSNW27526RYZ 250000 0 250000 100.00% 0").systems =
      [⟨"jean", "AFSNW27526RYZ", 250000, 0, 250000,
        ((1 : Int) : ℚ) * ((decimalNat ['1', '0', '0'] : ℚ) +
          (decimalNat ['0', '0'] : ℚ) / (10 : ℚ) ^ (['0', '0'] : List Char).length), 0⟩] := rfl
  rw [h, show decimalNat ['1', '0', '0'] = 100 from rfl,
    show decimalNat ['0', '0'] = 0 from rfl,
    show (['0', '0'] : List Char).length = 2 from rfl]
  norm_num

set_option maxHeartbeats 1600000 in
/-- Claim C8: enumeration text with one existing/on row and one cloud/off
row yields exactly the one existing/on endpoint; any line whose cleaned
column split has fewer than 3 columns yields no endpoint; and every row the
parser keeps has type existing and status on, so a row is kept only when it
has at least 3 non-empty columns with type existing and status on. -/
theorem claim_c8 :
    parseClusterTable
        "| pw://user/jean | on | existing |\n| pw://user/nimbus | off | cloud |" =
      [⟨"pw://user/jean", "on", "existing"⟩] ∧
    (∀ line : String, (colParts line).length < 3 → endpointOfLine line = none) ∧
    (∀ (line : String) (ep : ClusterEndpoint),
      endpointOfLine line = some ep → ep.ctype = "existing" ∧ ep.status = "on") := by
  refine ⟨by decide, ?_, ?_⟩
  · intro line h
    unfold endpointOfLine
    by_cases h0 : pyStrip (pyStripPipes (pyStrip line)) = ""
    · rw [if_pos h0]
    · rw [if_neg h0, if_neg (by omega : ¬ 3 ≤ (colParts line).length)]
  · intro line ep hep
    unfold endpointOfLine at hep
    by_cases h0 : pyStrip (pyStripPipes (pyStrip line)) = ""
    · rw [if_pos h0] at hep
      exact Option.noConfusion hep
    · rw [if_neg h0] at hep
      by_cases h3 : 3 ≤ (colParts line).length
      · rw [if_pos h3] at hep
        by_cases hflt : pyStrip ((colParts line).getD 2 "") = "existing" ∧
            pyStrip ((colParts line).getD 1 "") = "on"
        · rw [if_pos hflt] at hep
          injection hep with hep
          subst hep
          exact ⟨hflt.1, hflt.2⟩
        · rw [if_neg hflt] at hep
          exact Option.noConfusion hep
      · rw [if_neg h3] at hep
        exact Option.noConfusion hep

set_option maxHeartbeats 1600000 in
/-- Claim C8 witness: a one-column row is dropped, and the endpoint kept
from a concrete existing/on row has type existing and status on. -/
theorem claim_c8_witness :
    endpointOfLine "| lonely |" = none ∧
    ((⟨"pw://user/jean", "on", "existing"⟩ : ClusterEndpoint).ctype = "existing" ∧
      (⟨"pw://user/jean", "on", "existing"⟩ : ClusterEndpoint).status = "on") :=
  ⟨claim_c8.2.1 "| lonely |" (by decide),
    claim_c8.2.2 "| pw://user/jean | on | existing |"
      ⟨"pw://user/jean", "on", "existing"⟩ (by decide)⟩

/-- Claim C10: any line containing URI, STATUS or TYPE anywhere is treated
as a header by the enumeration parser and contributes nothing to the output;
in particular a data row for a cluster named PROTOTYPE yields no endpoint at
all, even though its cleaned row has 3 columns with type existing and status
on and the row handler alone would accept it. -/
theorem claim_c10 :
    (∀ (pre post : List String) (line : String),
      (containsSub line "URI" || containsSub line "STATUS" ||
        containsSub line "TYPE") = true →
      parseClusterLines (pre ++ line :: post) = parseClusterLines (pre ++ post)) ∧
    parseClusterTable "| pw://user/PROTOTYPE | on | existing |" = [] ∧
    3 ≤ (colParts "| pw://user/PROTOTYPE | on | existing |").length ∧
    endpointOfLine "| pw://user/PROTOTYPE | on | existing |" =
      some ⟨"pw://user/PROTOTYPE", "on", "existing"⟩ := by
  refine ⟨?_, by decide, by decide, by decide⟩
  intro pre post line h
  have hk : keepDataLine line = false := by
    simp [keepDataLine, h]
  simp [parseClusterLines, List.filter_append, List.filter_cons, hk]

/-- Claim C10 witness: a line containing STATUS inside a table contributes
nothing. -/
theorem claim_c10_witness :
    parseClusterLines (["| pw://u/a | on | existing |"] ++ "HEADER STATUS" :: []) =
      parseClusterLines (["| pw://u/a | on | existing |"] ++ []) :=
  claim_c10.1 ["| pw://u/a | on | existing |"] [] "HEADER STATUS" (by decide)

end HpcStatus
